import Mathlib

/-!
Verification of the Aura voice assistant client.

Shallow embedding of the audio codec helpers, the playback scheduling state,
the transcript accumulation and the connection lifecycle handlers of the
single-page client, together with theorems about the testable properties of
its specification.  Samples and clock times are modelled as rationals; the
JavaScript Int16Array conversion is modelled exactly (truncation toward zero
followed by wraparound modulo 2^16).
-/

namespace Aura

/-- Roles of transcript messages. -/
inductive Role where
  | user
  | assistant
deriving DecidableEq

/-- A finalized transcript entry (interface Message in the source). -/
structure Message where
  role : Role
  text : String
  timestamp : ℤ
deriving DecidableEq

/-- Connection status values (type ConnectionStatus in the source). -/
inductive ConnectionStatus where
  | disconnected
  | connecting
  | connected
  | error
deriving DecidableEq

/-- The base64 alphabet used by the browser btoa and atob primitives. -/
def b64chars : List Char :=
  "ABCDEFGHIJKLMNOPQRSTUVWXYZabcdefghijklmnopqrstuvwxyz0123456789+/".toList

/-- Character for a six-bit group. -/
def sextetToChar (n : ℕ) : Char := b64chars.getD n 'A'

/-- Six-bit group of a base64 character. -/
def charToSextet (c : Char) : ℕ := b64chars.findIdx (fun x => x == c)

/-- btoa on a byte sequence: groups of three bytes become four base64
characters, shorter tails are padded with =.  The source helper named encode
builds the binary string from the bytes and applies btoa to it. -/
def btoa : List ℕ → List Char
  | [] => []
  | [a] => [sextetToChar (a / 4), sextetToChar (a % 4 * 16), '=', '=']
  | [a, b] =>
      [sextetToChar (a / 4), sextetToChar (a % 4 * 16 + b / 16),
       sextetToChar (b % 16 * 4), '=']
  | a :: b :: c :: rest =>
      sextetToChar (a / 4) :: sextetToChar (a % 4 * 16 + b / 16) ::
      sextetToChar (b % 16 * 4 + c / 64) :: sextetToChar (c % 64) :: btoa rest

/-- Reassemble bytes from the unpadded base64 characters. -/
def atobCore : List Char → List ℕ
  | c1 :: c2 :: c3 :: c4 :: rest =>
      (charToSextet c1 * 4 + charToSextet c2 / 16) ::
      (charToSextet c2 % 16 * 16 + charToSextet c3 / 4) ::
      (charToSextet c3 % 4 * 64 + charToSextet c4) :: atobCore rest
  | [c1, c2, c3] =>
      [charToSextet c1 * 4 + charToSextet c2 / 16,
       charToSextet c2 % 16 * 16 + charToSextet c3 / 4]
  | [c1, c2] => [charToSextet c1 * 4 + charToSextet c2 / 16]
  | _ => []

/-- atob on a base64 text: drop the padding and reassemble the bytes.  The
source helper named decode applies atob and reads the character codes into a
Uint8Array. -/
def atob (s : List Char) : List ℕ := atobCore (s.filter (fun c => c != '='))

/-- JavaScript integer conversion: truncation toward zero of a rational. -/
def ratTrunc (q : ℚ) : ℤ := if 0 ≤ q then ⌊q⌋ else ⌈q⌉

/-- Storing a number into an Int16Array element: truncate toward zero, then
wrap modulo 2^16 into the interval from -32768 to 32767. -/
def toInt16 (q : ℚ) : ℤ := (ratTrunc q + 32768) % 65536 - 32768

/-- Little-endian byte view of one Int16Array element. -/
def int16ToBytes (v : ℤ) : List ℕ :=
  [(v % 65536).toNat % 256, (v % 65536).toNat / 256]

/-- The Int16Array contents produced by createBlob, source lines 114 to 119:
each sample is multiplied by 32768 and stored into an Int16Array slot. -/
def createBlobInts (data : List ℚ) : List ℤ :=
  data.map (fun s => toInt16 (s * 32768))

/-- The byte view of that Int16Array, as passed to the encode helper. -/
def createBlobBytes (data : List ℚ) : List ℕ :=
  ((createBlobInts data).map int16ToBytes).flatten

/-- createBlob, source lines 114 to 124: quantize the samples to 16-bit PCM,
view the buffer as bytes and base64-encode them; this is the data field of
the produced blob. -/
def createBlobData (data : List ℚ) : List Char := btoa (createBlobBytes data)

/-- The Int16Array view of a received byte buffer: consecutive little-endian
pairs, read as signed 16-bit integers. -/
def bytesToInt16 : List ℕ → List ℤ
  | b0 :: b1 :: rest =>
      (if b0 + 256 * b1 < 32768 then (b0 + 256 * b1 : ℤ)
       else (b0 + 256 * b1 : ℤ) - 65536) :: bytesToInt16 rest
  | _ => []

/-- decodeAudioData, source lines 62 to 79: view the bytes as Int16Array,
compute the frame count, and fill one sample list per channel by dividing the
interleaved integers by 32768. -/
def decodeAudioData (bytes : List ℕ) (numChannels : ℕ) : List (List ℚ) :=
  let dataInt16 := bytesToInt16 bytes
  let frameCount := dataInt16.length / numChannels
  (List.range numChannels).map (fun ch =>
    (List.range frameCount).map (fun i =>
      ((dataInt16.getD (i * numChannels + ch) 0 : ℤ) : ℚ) / 32768))

/-- The mono channel recovered by the playback path from a base64 payload,
as in the audio branch of onmessage, source line 202. -/
def decodedSamples (payload : List Char) : List ℚ :=
  (decodeAudioData (atob payload) 1).getD 0 []

/-- The input and output AudioContext pair held by audioContextRef.  The id
field distinguishes distinct creations; the rates are the ones the source
passes at creation, source lines 101 to 112. -/
structure AudioCtxPair where
  id : ℕ
  inputRate : ℕ
  outputRate : ℕ
deriving DecidableEq

/-- One in-flight scheduled output buffer: an AudioBufferSourceNode together
with its scheduled start time and duration. -/
structure Handle where
  startTime : ℚ
  duration : ℚ
  stopped : Bool
deriving DecidableEq

/-- The mutable state of the App component: the React state hooks, the refs
for the audio pipeline, and observable facts about acquired resources.
micStreams counts getUserMedia streams that were acquired and never stopped;
captureRunning records whether the script-processor capture graph is wired;
sessionOpen records whether sessionPromiseRef holds a session; and
closeRequested records whether a channel close was requested. -/
structure AppState where
  status : ConnectionStatus
  messages : List Message
  isListening : Bool
  isAssistantTalking : Bool
  errorMessage : Option String
  audioCtx : Option AudioCtxPair
  ctxCreations : ℕ
  micStreams : ℕ
  sessionOpen : Bool
  closeRequested : Bool
  captureRunning : Bool
  nextStartTime : ℚ
  sources : List Handle
  userBuf : String
  assistantBuf : String
deriving DecidableEq

/-- The initial component state: all hooks at their initial values, refs
empty, no resources acquired. -/
def initState : AppState :=
  { status := ConnectionStatus.disconnected, messages := [],
    isListening := false, isAssistantTalking := false, errorMessage := none,
    audioCtx := none, ctxCreations := 0, micStreams := 0,
    sessionOpen := false, closeRequested := false, captureRunning := false,
    nextStartTime := 0, sources := [], userBuf := "", assistantBuf := "" }

/-- ensureAudioContext, source lines 101 to 112: create the 16 kHz input and
24 kHz output contexts only when none exist yet; afterwards the same pair is
resumed and reused. -/
def ensureAudioContext (st : AppState) : AppState :=
  match st.audioCtx with
  | some _ => st
  | none =>
      { st with
          audioCtx := some { id := st.ctxCreations, inputRate := 16000,
                             outputRate := 24000 },
          ctxCreations := st.ctxCreations + 1 }

/-- Outcomes of the suspending steps inside connect: whether getUserMedia
succeeds and whether the client set-up after it succeeds, with the message
carried by the thrown error. -/
structure ConnectEnv where
  micOk : Bool
  clientOk : Bool
  errMsg : String
deriving DecidableEq

/-- connect, source lines 137 to 264.  The try block sets the connecting
status, clears the error slot, ensures the audio contexts, acquires the
microphone, builds the client and stores the session promise.  The catch
block only sets the error status and the error message: nothing acquired
before the failure is released. -/
def connect (env : ConnectEnv) (st : AppState) : AppState :=
  let st1 := { st with status := ConnectionStatus.connecting,
                       errorMessage := none }
  let st2 := ensureAudioContext st1
  if env.micOk then
    let st3 := { st2 with micStreams := st2.micStreams + 1 }
    if env.clientOk then
      { st3 with sessionOpen := true }
    else
      { st3 with status := ConnectionStatus.error,
                 errorMessage := some env.errMsg }
  else
    { st2 with status := ConnectionStatus.error,
               errorMessage := some env.errMsg }

/-- The onopen callback, source lines 155 to 174: connected status, the
listening flag, and the capture graph is wired up and starts running. -/
def onopen (st : AppState) : AppState :=
  { st with status := ConnectionStatus.connected, isListening := true,
            captureRunning := true }

/-- Input transcription branch of onmessage, source lines 176 to 178. -/
def onInputTranscription (s : String) (st : AppState) : AppState :=
  { st with userBuf := st.userBuf ++ s }

/-- Output transcription branch of onmessage, source lines 179 to 181. -/
def onOutputTranscription (s : String) (st : AppState) : AppState :=
  { st with assistantBuf := st.assistantBuf ++ s }

/-- turnComplete branch of onmessage, source lines 183 to 195.  t1 and t2
are the two Date.now readings taken for the user and the assistant record;
the source adds one to the second reading. -/
def onTurnComplete (t1 t2 : ℤ) (st : AppState) : AppState :=
  if st.userBuf ≠ "" ∨ st.assistantBuf ≠ "" then
    { st with
        messages := st.messages ++
          ((if st.userBuf ≠ "" then
              [{ role := Role.user, text := st.userBuf, timestamp := t1 }]
            else []) ++
           (if st.assistantBuf ≠ "" then
              [{ role := Role.assistant, text := st.assistantBuf,
                 timestamp := t2 + 1 }]
            else [])),
        userBuf := "", assistantBuf := "" }
  else st

/-- Audio branch of onmessage, source lines 197 to 219.  now is the output
clock reading at dispatch and d the duration of the decoded buffer.  The
cursor is first clamped to the clock, the node starts at the clamped value,
the cursor advances by the duration and the node joins the active set.
Returns the updated state and the start time passed to the node. -/
def scheduleAudio (now d : ℚ) (st : AppState) : AppState × ℚ :=
  let start := max st.nextStartTime now
  ({ st with
      isAssistantTalking := true,
      nextStartTime := start + d,
      sources := st.sources ++ [{ startTime := start, duration := d,
                                  stopped := false }] },
   start)

/-- interrupted branch of onmessage, source lines 221 to 228: stop every
tracked source, clear the set, zero the cursor, drop the talking flag.  The
second component returns the previously tracked handles, each stopped. -/
def onInterrupted (st : AppState) : AppState × List Handle :=
  ({ st with sources := [], nextStartTime := 0,
             isAssistantTalking := false },
   st.sources.map (fun h => { h with stopped := true }))

/-- The active-set emptiness view used by the ended listener, source line
211: the assistant is active while the set of tracked sources is non-empty. -/
def isActive (st : AppState) : Bool := !st.sources.isEmpty

/-- Error classification in the onerror callback, source lines 230 to 239:
an entity-not-found detail means a key or project mismatch, anything else a
generic connectivity message. -/
def classifyError (msg : String) : String :=
  if (msg.splitOn "Requested entity was not found").length > 1 then
    "API Key or Project mismatch. Please re-select your key."
  else
    "Network error: Connection to Aura lost. Check your API key and connection."

/-- The onerror callback: error status and the classified message. -/
def onerror (msg : String) (st : AppState) : AppState :=
  { st with status := ConnectionStatus.error,
            errorMessage := some (classifyError msg) }

/-- The onclose callback, source lines 241 to 245: only the three state
setters run; nothing stops the capture graph and nothing touches the
playback refs. -/
def onclose (st : AppState) : AppState :=
  { st with status := ConnectionStatus.disconnected, isListening := false,
            isAssistantTalking := false }

/-- disconnect, source lines 266 to 273: ask the session to close, then
synchronously set the disconnected status and clear both flags. -/
def disconnect (st : AppState) : AppState :=
  { st with closeRequested := st.closeRequested || st.sessionOpen,
            status := ConnectionStatus.disconnected,
            isListening := false, isAssistantTalking := false }

/-- Every event the component reacts to. -/
inductive Op where
  | connectOp (env : ConnectEnv)
  | disconnectOp
  | chOpen
  | chClose
  | chError (msg : String)
  | inputTrans (s : String)
  | outputTrans (s : String)
  | turnComplete (t1 t2 : ℤ)
  | audio (now d : ℚ)
  | interrupted

/-- Dispatch of one event. -/
def step : Op → AppState → AppState
  | Op.connectOp env, st => connect env st
  | Op.disconnectOp, st => disconnect st
  | Op.chOpen, st => onopen st
  | Op.chClose, st => onclose st
  | Op.chError msg, st => onerror msg st
  | Op.inputTrans s, st => onInputTranscription s st
  | Op.outputTrans s, st => onOutputTranscription s st
  | Op.turnComplete t1 t2, st => onTurnComplete t1 t2 st
  | Op.audio now d, st => (scheduleAudio now d st).1
  | Op.interrupted, st => (onInterrupted st).1

/-- Run a sequence of events from a state. -/
def run : List Op → AppState → AppState
  | [], st => st
  | op :: rest, st => run rest (step op st)

/-- State after n audio messages, with clock readings now and durations d. -/
def schedStateAt (st0 : AppState) (now d : ℕ → ℚ) : ℕ → AppState
  | 0 => st0
  | n + 1 => (scheduleAudio (now n) (d n) (schedStateAt st0 now d n)).1

/-- Start time chosen for the buffer of the n-th audio message. -/
def schedStart (st0 : AppState) (now d : ℕ → ℚ) (n : ℕ) : ℚ :=
  (scheduleAudio (now n) (d n) (schedStateAt st0 now d n)).2

/-- Constant zero sequence of clock readings and durations. -/
def zeroFun : ℕ → ℚ := fun _ => 0

/-- The interleaved appends of the transcript scenario: user a, assistant b,
user c. -/
def interleavedTurn (st : AppState) : AppState :=
  onInputTranscription "c" (onOutputTranscription "b"
    (onInputTranscription "a" st))

/-- A sample block inside the half-open quantization range. -/
def demoSamples : List ℚ := [0, -1]

/-- A scheduler state with three tracked handles, a talking assistant and a
non-zero cursor. -/
def demoSched : AppState :=
  { initState with
      nextStartTime := 7, isAssistantTalking := true,
      sources := [{ startTime := 1, duration := 2, stopped := false },
                  { startTime := 3, duration := 2, stopped := false },
                  { startTime := 5, duration := 2, stopped := false }] }

/-- An environment where the microphone is acquired and a later step of
connect throws. -/
def envMicFailAfter : ConnectEnv :=
  { micOk := true, clientOk := false, errMsg := "client construction failed" }

/-- An environment where every step of connect succeeds. -/
def envAllOk : ConnectEnv := { micOk := true, clientOk := true, errMsg := "" }

/-- A connected session state with one acquired microphone stream and the
audio contexts already created. -/
def demoConnected : AppState :=
  { initState with
      status := ConnectionStatus.connected, isListening := true,
      sessionOpen := true, captureRunning := true, micStreams := 1,
      audioCtx := some { id := 0, inputRate := 16000, outputRate := 24000 },
      ctxCreations := 1 }

/-- A connected state with a running capture graph and an in-flight buffer. -/
def demoClosing : AppState :=
  { demoConnected with
      isAssistantTalking := true, nextStartTime := 9,
      sources := [{ startTime := 4, duration := 5, stopped := false }] }

/-- An event sequence with two connects, a disconnect and a close. -/
def ops10 : List Op :=
  [Op.connectOp envAllOk, Op.chOpen, Op.disconnectOp, Op.chClose,
   Op.connectOp envAllOk]

/-- Decoding a base64 character produced from a six-bit group recovers the
group. -/
theorem charToSextet_sextetToChar : ∀ n < 64, charToSextet (sextetToChar n) = n := by
  decide

/-- No six-bit group is encoded as the padding character. -/
theorem sextetToChar_ne_pad : ∀ n < 64, sextetToChar n ≠ '=' := by
  decide

/-- Filtering the padding character keeps a non-padding head. -/
theorem filter_pad_cons (c : Char) (hc : c ≠ '=') (cs : List Char) :
    (c :: cs).filter (fun x => x != '=') = c :: cs.filter (fun x => x != '=') := by
  simp [List.filter_cons, hc]

/-- Filtering the padding character drops a padding head. -/
theorem filter_pad_cons_pad (cs : List Char) :
    ('=' :: cs).filter (fun x => x != '=') = cs.filter (fun x => x != '=') := by
  simp [List.filter_cons]

/-- Base64 round trip on byte lists: atob recovers what btoa encoded. -/
theorem atobCore_btoa : ∀ l : List ℕ, (∀ x ∈ l, x < 256) →
    atobCore ((btoa l).filter (fun c => c != '=')) = l
  | [], _ => rfl
  | [a], h => by
      have ha : a < 256 := h a (by simp)
      have h1 : a / 4 < 64 := by omega
      have h2 : a % 4 * 16 < 64 := by omega
      show atobCore ((sextetToChar (a / 4) :: sextetToChar (a % 4 * 16) ::
        '=' :: '=' :: []).filter (fun c => c != '=')) = [a]
      rw [filter_pad_cons _ (sextetToChar_ne_pad _ h1),
          filter_pad_cons _ (sextetToChar_ne_pad _ h2),
          filter_pad_cons_pad, filter_pad_cons_pad]
      show [charToSextet (sextetToChar (a / 4)) * 4 +
            charToSextet (sextetToChar (a % 4 * 16)) / 16] = [a]
      rw [charToSextet_sextetToChar _ h1, charToSextet_sextetToChar _ h2]
      simp only [List.cons.injEq, and_true]
      omega
  | [a, b], h => by
      have ha : a < 256 := h a (by simp)
      have hb : b < 256 := h b (by simp)
      have h1 : a / 4 < 64 := by omega
      have h2 : a % 4 * 16 + b / 16 < 64 := by omega
      have h3 : b % 16 * 4 < 64 := by omega
      show atobCore ((sextetToChar (a / 4) ::
        sextetToChar (a % 4 * 16 + b / 16) :: sextetToChar (b % 16 * 4) ::
        '=' :: []).filter (fun c => c != '=')) = [a, b]
      rw [filter_pad_cons _ (sextetToChar_ne_pad _ h1),
          filter_pad_cons _ (sextetToChar_ne_pad _ h2),
          filter_pad_cons _ (sextetToChar_ne_pad _ h3), filter_pad_cons_pad]
      show [charToSextet (sextetToChar (a / 4)) * 4 +
            charToSextet (sextetToChar (a % 4 * 16 + b / 16)) / 16,
            charToSextet (sextetToChar (a % 4 * 16 + b / 16)) % 16 * 16 +
            charToSextet (sextetToChar (b % 16 * 4)) / 4] = [a, b]
      rw [charToSextet_sextetToChar _ h1, charToSextet_sextetToChar _ h2,
          charToSextet_sextetToChar _ h3]
      simp only [List.cons.injEq, and_true]
      constructor <;> omega
  | a :: b :: c :: rest, h => by
      have ha : a < 256 := h a (by simp)
      have hb : b < 256 := h b (by simp)
      have hc : c < 256 := h c (by simp)
      have ih := atobCore_btoa rest (fun x hx => h x (by simp [hx]))
      have h1 : a / 4 < 64 := by omega
      have h2 : a % 4 * 16 + b / 16 < 64 := by omega
      have h3 : b % 16 * 4 + c / 64 < 64 := by omega
      have h4 : c % 64 < 64 := by omega
      show atobCore ((sextetToChar (a / 4) ::
        sextetToChar (a % 4 * 16 + b / 16) ::
        sextetToChar (b % 16 * 4 + c / 64) :: sextetToChar (c % 64) ::
        btoa rest).filter (fun x => x != '=')) = a :: b :: c :: rest
      rw [filter_pad_cons _ (sextetToChar_ne_pad _ h1),
          filter_pad_cons _ (sextetToChar_ne_pad _ h2),
          filter_pad_cons _ (sextetToChar_ne_pad _ h3),
          filter_pad_cons _ (sextetToChar_ne_pad _ h4)]
      show (charToSextet (sextetToChar (a / 4)) * 4 +
            charToSextet (sextetToChar (a % 4 * 16 + b / 16)) / 16) ::
           (charToSextet (sextetToChar (a % 4 * 16 + b / 16)) % 16 * 16 +
            charToSextet (sextetToChar (b % 16 * 4 + c / 64)) / 4) ::
           (charToSextet (sextetToChar (b % 16 * 4 + c / 64)) % 4 * 64 +
            charToSextet (sextetToChar (c % 64))) ::
           atobCore ((btoa rest).filter (fun x => x != '=')) =
           a :: b :: c :: rest
      rw [charToSextet_sextetToChar _ h1, charToSextet_sextetToChar _ h2,
          charToSextet_sextetToChar _ h3, charToSextet_sextetToChar _ h4, ih]
      simp only [List.cons.injEq, and_true]
      refine ⟨by omega, by omega, by omega⟩

/-- atob inverts btoa on byte lists. -/
theorem atob_btoa (l : List ℕ) (h : ∀ x ∈ l, x < 256) : atob (btoa l) = l :=
  atobCore_btoa l h

/-- Both bytes of an Int16Array element are bytes. -/
theorem int16ToBytes_lt (v : ℤ) : ∀ x ∈ int16ToBytes v, x < 256 := by
  intro x hx
  have h1 : 0 ≤ v % 65536 := Int.emod_nonneg v (by norm_num)
  have h2 : v % 65536 < 65536 := Int.emod_lt_of_pos v (by norm_num)
  simp only [int16ToBytes, List.mem_cons, List.not_mem_nil, or_false] at hx
  rcases hx with h | h <;> omega

/-- Every byte of an encoded sample block is a byte. -/
theorem createBlobBytes_lt (data : List ℚ) :
    ∀ x ∈ createBlobBytes data, x < 256 := by
  intro x hx
  simp only [createBlobBytes, List.mem_flatten, List.mem_map] at hx
  obtain ⟨l, ⟨v, _, rfl⟩, hxl⟩ := hx
  exact int16ToBytes_lt v x hxl

/-- The Int16Array view of the little-endian bytes of a list of in-range
16-bit integers recovers the integers. -/
theorem bytesToInt16_int16ToBytes : ∀ l : List ℤ,
    (∀ v ∈ l, -32768 ≤ v ∧ v < 32768) →
    bytesToInt16 ((l.map int16ToBytes).flatten) = l
  | [], _ => rfl
  | v :: rest, h => by
      have hv := h v (by simp)
      have ih := bytesToInt16_int16ToBytes rest (fun x hx => h x (by simp [hx]))
      have h1 : 0 ≤ v % 65536 := Int.emod_nonneg v (by norm_num)
      have h2 : v % 65536 < 65536 := Int.emod_lt_of_pos v (by norm_num)
      show bytesToInt16 ((v % 65536).toNat % 256 ::
        (v % 65536).toNat / 256 :: (rest.map int16ToBytes).flatten) = v :: rest
      show (if (v % 65536).toNat % 256 + 256 * ((v % 65536).toNat / 256) < 32768
            then ((v % 65536).toNat % 256 + 256 * ((v % 65536).toNat / 256) : ℤ)
            else ((v % 65536).toNat % 256 + 256 * ((v % 65536).toNat / 256) : ℤ)
              - 65536) :: bytesToInt16 ((rest.map int16ToBytes).flatten) = v :: rest
      rw [ih]
      simp only [List.cons.injEq, and_true]
      split <;> omega

/-- Every quantized sample lies in the signed 16-bit range. -/
theorem toInt16_range (q : ℚ) : -32768 ≤ toInt16 q ∧ toInt16 q < 32768 := by
  unfold toInt16
  have h1 : 0 ≤ (ratTrunc q + 32768) % 65536 :=
    Int.emod_nonneg (ratTrunc q + 32768) (by norm_num)
  have h2 : (ratTrunc q + 32768) % 65536 < 65536 :=
    Int.emod_lt_of_pos (ratTrunc q + 32768) (by norm_num)
  omega

/-- Truncation stays within one of the truncated value. -/
theorem ratTrunc_close (q : ℚ) : |q - (ratTrunc q : ℚ)| ≤ 1 := by
  unfold ratTrunc
  split
  · have hl := Int.floor_le q
    have hr := Int.lt_floor_add_one q
    rw [abs_le]
    constructor <;> linarith
  · have hl := Int.le_ceil q
    have hr := Int.ceil_lt_add_one q
    rw [abs_le]
    constructor <;> linarith

/-- On the non-wrapping range the Int16Array conversion is plain
truncation. -/
theorem toInt16_eq_ratTrunc (q : ℚ) (h1 : -32768 ≤ q) (h2 : q < 32768) :
    toInt16 q = ratTrunc q := by
  have hl : -32768 ≤ ratTrunc q := by
    unfold ratTrunc
    split
    · have : (0 : ℤ) ≤ ⌊q⌋ := Int.floor_nonneg.mpr (by assumption)
      omega
    · have h1c : ((-32768 : ℤ) : ℚ) ≤ q := by push_cast; linarith
      have := Int.ceil_le_ceil h1c
      rw [Int.ceil_intCast] at this
      omega
  have hr : ratTrunc q ≤ 32767 := by
    unfold ratTrunc
    split
    · have : ⌊q⌋ < (32768 : ℤ) := Int.floor_lt.mpr (by push_cast; linarith)
      omega
    · have hq : q ≤ 0 := le_of_not_le (by assumption)
      have : ⌈q⌉ ≤ (0 : ℤ) := Int.ceil_le.mpr (by push_cast; linarith)
      omega
  unfold toInt16
  omega

/-- One quantized sample decodes to within one quantization step of the
original when the original lies in the half-open unit range. -/
theorem sample_roundtrip (s : ℚ) (h1 : -1 ≤ s) (h2 : s < 1) :
    |s - (toInt16 (s * 32768) : ℚ) / 32768| ≤ 1 / 32768 := by
  have hq1 : -32768 ≤ s * 32768 := by linarith
  have hq2 : s * 32768 < 32768 := by linarith
  rw [toInt16_eq_ratTrunc _ hq1 hq2]
  have hclose := ratTrunc_close (s * 32768)
  have h3 : s - (ratTrunc (s * 32768) : ℚ) / 32768 =
      (s * 32768 - (ratTrunc (s * 32768) : ℚ)) / 32768 := by ring
  rw [h3, abs_div, abs_of_pos (by norm_num : (0 : ℚ) < 32768)]
  gcongr

/-- Indexing a list through its range enumerates it. -/
theorem range_map_getD (g : ℤ → ℚ) : ∀ d : List ℤ,
    ((List.range d.length).map (fun i => g (d.getD i 0))) = d.map g
  | [] => rfl
  | v :: rest => by
      rw [List.length_cons, List.range_succ_eq_map]
      simp only [List.map_cons, List.map_map]
      have hhead : (v :: rest).getD 0 0 = v := rfl
      have htail : ((List.range rest.length).map
          ((fun i => g ((v :: rest).getD i 0)) ∘ (fun i => i + 1))) =
          (List.range rest.length).map (fun i => g (rest.getD i 0)) := by
        apply List.map_congr_left
        intro i _
        rfl
      rw [hhead, htail, range_map_getD g rest]

/-- The mono playback path decodes the base64 payload of createBlob to the
quantized samples divided by 32768. -/
theorem decodedSamples_createBlob (data : List ℚ) :
    decodedSamples (createBlobData data) =
      data.map (fun s => (toInt16 (s * 32768) : ℚ) / 32768) := by
  unfold decodedSamples createBlobData
  rw [atob_btoa _ (createBlobBytes_lt data)]
  unfold createBlobBytes
  simp only [decodeAudioData]
  rw [bytesToInt16_int16ToBytes (createBlobInts data)
    (fun v hv => by
      simp only [createBlobInts, List.mem_map] at hv
      obtain ⟨s, _, rfl⟩ := hv
      exact toInt16_range (s * 32768))]
  rw [show List.range 1 = [0] from rfl]
  simp only [List.map_cons, List.map_nil, List.getD_cons_zero,
    Nat.div_one, mul_one, add_zero]
  rw [range_map_getD (fun v => ((v : ℤ) : ℚ) / 32768) (createBlobInts data)]
  unfold createBlobInts
  rw [List.map_map]
  rfl

/-- Indexing through getD commutes with map below the length. -/
theorem getD_map_div (l : List ℤ) (i : ℕ) (hi : i < l.length) :
    (l.map (fun v => ((v : ℤ) : ℚ) / 32768)).getD i 0 =
      ((l.getD i 0 : ℤ) : ℚ) / 32768 := by
  rw [List.getD_eq_getElem?_getD, List.getElem?_map,
      List.getElem?_eq_getElem hi, List.getD_eq_getElem?_getD,
      List.getElem?_eq_getElem hi]
  rfl

/-- Indexing the quantized integers below the length. -/
theorem getD_createBlobInts (data : List ℚ) (i : ℕ) (hi : i < data.length) :
    (createBlobInts data).getD i 0 = toInt16 (data.getD i 0 * 32768) := by
  unfold createBlobInts
  rw [List.getD_eq_getElem?_getD, List.getElem?_map,
      List.getElem?_eq_getElem hi, List.getD_eq_getElem?_getD,
      List.getElem?_eq_getElem hi]
  rfl

/-- Claim C2 (amended): for a sample block whose values lie in the half-open
interval from -1 inclusive to 1 exclusive, quantizing with createBlob
(Int16Array conversion, little-endian bytes, base64) and then decoding along
the playback path (atob, Int16Array view, division by 32768) yields a block
of the same length whose samples are each within one quantization step,
1 / 32768, of the original.  At the included endpoint 1 the unclamped
conversion wraps around instead. -/
theorem encode_decode_roundtrip (data : List ℚ)
    (h : ∀ s ∈ data, -1 ≤ s ∧ s < 1) :
    (decodedSamples (createBlobData data)).length = data.length ∧
    ∀ i, i < data.length →
      |data.getD i 0 - (decodedSamples (createBlobData data)).getD i 0| ≤
        1 / 32768 := by
  rw [decodedSamples_createBlob data]
  constructor
  · simp
  · intro i hi
    have hmem : data.getD i 0 ∈ data := by
      rw [List.getD_eq_getElem?_getD, List.getElem?_eq_getElem hi]
      exact List.getElem_mem hi
    have hs := h _ hmem
    have hrw : (data.map (fun s => (toInt16 (s * 32768) : ℚ) / 32768)).getD i 0
        = (toInt16 (data.getD i 0 * 32768) : ℚ) / 32768 := by
      rw [List.getD_eq_getElem?_getD, List.getElem?_map,
          List.getElem?_eq_getElem hi, List.getD_eq_getElem?_getD,
          List.getElem?_eq_getElem hi]
      rfl
    rw [hrw]
    exact sample_roundtrip _ hs.1 hs.2

/-- Witness for C2 at the block with samples zero and minus one. -/
theorem encode_decode_roundtrip_witness :
    (∀ s ∈ demoSamples, -1 ≤ s ∧ s < 1) ∧
    ((decodedSamples (createBlobData demoSamples)).length =
        demoSamples.length ∧
      ∀ i, i < demoSamples.length →
        |demoSamples.getD i 0 -
          (decodedSamples (createBlobData demoSamples)).getD i 0| ≤
          1 / 32768) :=
  ⟨by decide, encode_decode_roundtrip demoSamples (by decide)⟩

/-- Claim C2 counterexample: the sample value 1 lies in the closed interval
from -1 to 1, yet the unclamped Int16Array conversion wraps it to -32768, so
the decoded block is the single sample -1, an error of 2 rather than at most
one quantization step. -/
theorem encode_decode_wraps_at_one :
    decodedSamples (createBlobData [1]) = [-1] ∧
    ¬ |(1 : ℚ) - (-1 : ℚ)| ≤ 1 / 32768 := by
  constructor
  · rw [decodedSamples_createBlob]
    have hcast : ((1 : ℚ) * 32768) = ((32768 : ℤ) : ℚ) := by norm_num
    have ht : toInt16 ((1 : ℚ) * 32768) = -32768 := by
      rw [hcast]
      unfold toInt16 ratTrunc
      rw [if_pos (by norm_num : (0 : ℚ) ≤ ((32768 : ℤ) : ℚ)),
          Int.floor_intCast]
      decide
    simp only [List.map_cons, List.map_nil, ht]
    norm_num
  · norm_num

/-- The cursor after a scheduled buffer sits at its start plus its
duration. -/
theorem schedStateAt_succ_cursor (st0 : AppState) (now d : ℕ → ℚ) (n : ℕ) :
    (schedStateAt st0 now d (n + 1)).nextStartTime =
      schedStart st0 now d n + d n := rfl

/-- The start of each buffer clamps the cursor to the clock. -/
theorem schedStart_eq_max (st0 : AppState) (now d : ℕ → ℚ) (n : ℕ) :
    schedStart st0 now d n =
      max (schedStateAt st0 now d n).nextStartTime (now n) := rfl

/-- Claim C1: for any sequence of schedule calls with clock readings now and
non-negative frame durations d, delivered at least as fast as real time, the
computed start times are non-decreasing and each buffer starts no earlier
than the previous start plus the previous duration: scheduled buffers never
overlap in output time.  Each start is the maximum of the cursor and the
clock, and the cursor then advances by the duration. -/
theorem schedule_no_overlap (st0 : AppState) (now d : ℕ → ℚ)
    (hd : ∀ i, 0 ≤ d i)
    (_hfast : ∀ i, now (i + 1) ≤ schedStart st0 now d i + d i) :
    ∀ i, schedStart st0 now d i ≤ schedStart st0 now d (i + 1) ∧
      schedStart st0 now d i + d i ≤ schedStart st0 now d (i + 1) := by
  intro i
  have h1 : schedStart st0 now d (i + 1) =
      max (schedStart st0 now d i + d i) (now (i + 1)) := by
    rw [schedStart_eq_max, schedStateAt_succ_cursor]
  have h2 : schedStart st0 now d i + d i ≤ schedStart st0 now d (i + 1) := by
    rw [h1]; exact le_max_left _ _
  refine ⟨?_, h2⟩
  have := hd i
  linarith

/-- The constant-zero schedule never moves the start time. -/
theorem schedStart_zeroFun :
    ∀ i, schedStart initState zeroFun zeroFun i = 0
  | 0 => by
      rw [schedStart_eq_max]
      show max initState.nextStartTime (zeroFun 0) = 0
      norm_num [initState, zeroFun]
  | i + 1 => by
      rw [schedStart_eq_max, schedStateAt_succ_cursor,
          schedStart_zeroFun i]
      norm_num [zeroFun]

/-- Witness for C1 at the constant-zero clock and durations. -/
theorem schedule_no_overlap_witness :
    ((∀ i, 0 ≤ zeroFun i) ∧
      (∀ i, zeroFun (i + 1) ≤
        schedStart initState zeroFun zeroFun i + zeroFun i)) ∧
    (∀ i, schedStart initState zeroFun zeroFun i ≤
        schedStart initState zeroFun zeroFun (i + 1) ∧
      schedStart initState zeroFun zeroFun i + zeroFun i ≤
        schedStart initState zeroFun zeroFun (i + 1)) := by
  have hd : ∀ i, 0 ≤ zeroFun i := fun _ => le_refl 0
  have hf : ∀ i, zeroFun (i + 1) ≤
      schedStart initState zeroFun zeroFun i + zeroFun i := by
    intro i
    rw [schedStart_zeroFun i]
    norm_num [zeroFun]
  exact ⟨⟨hd, hf⟩, schedule_no_overlap initState zeroFun zeroFun hd hf⟩

/-- Claim C3: processing one interruption event empties the active set,
makes the activity view and the talking flag false immediately after, and
stops every previously tracked handle, for every scheduler state and hence
for any number of scheduled handles and any start times. -/
theorem interruption_clears_all (st : AppState) :
    (onInterrupted st).1.sources = [] ∧
    isActive (onInterrupted st).1 = false ∧
    (onInterrupted st).1.isAssistantTalking = false ∧
    ∀ h ∈ (onInterrupted st).2, h.stopped = true := by
  refine ⟨rfl, rfl, rfl, ?_⟩
  intro h hh
  simp only [onInterrupted, List.mem_map] at hh
  obtain ⟨a, _, rfl⟩ := hh
  rfl

/-- Witness for C3 at the scheduler state with three tracked handles. -/
theorem interruption_clears_all_witness :
    (onInterrupted demoSched).1.sources = [] ∧
    isActive (onInterrupted demoSched).1 = false ∧
    (onInterrupted demoSched).1.isAssistantTalking = false ∧
    ∀ h ∈ (onInterrupted demoSched).2, h.stopped = true :=
  interruption_clears_all demoSched

/-- Claim C4 counterexample: in a state where the output clock reads 3 at
the moment of the interruption, the reset leaves the cursor at 0, not at the
clock reading. -/
theorem reset_cursor_not_clock_time :
    (onInterrupted demoSched).1.nextStartTime = 0 ∧ (0 : ℚ) ≠ 3 :=
  ⟨rfl, by norm_num⟩

/-- Claim C4 (amended): the reset performed on an interruption sets the
next-start-time cursor to the constant 0, whatever the state and whatever
the output clock reads; the following schedule call clamps the cursor to
the clock again. -/
theorem reset_cursor_zero (st : AppState) :
    (onInterrupted st).1.nextStartTime = 0 := rfl

/-- Witness for C4 at the scheduler state with a cursor at 7. -/
theorem reset_cursor_zero_witness :
    (onInterrupted demoSched).1.nextStartTime = 0 :=
  reset_cursor_zero demoSched

/-- Claim C5 counterexample: when the step after microphone acquisition
throws, connect surfaces the error with the microphone stream still
acquired: one stream was acquired and zero were released, so release calls
do not match acquire calls. -/
theorem connect_failure_leaks_mic :
    (connect envMicFailAfter initState).status = ConnectionStatus.error ∧
    (connect envMicFailAfter initState).micStreams = 1 ∧
    initState.micStreams = 0 :=
  ⟨rfl, rfl, rfl⟩

/-- Claim C5 (amended): a failure inside connect after the microphone was
acquired sets the error status and the error message but releases nothing:
the microphone stream count grows by one and stays there, and the session
slot is untouched. -/
theorem connect_failure_no_release (st : AppState) (env : ConnectEnv)
    (hm : env.micOk = true) (hc : env.clientOk = false) :
    (connect env st).status = ConnectionStatus.error ∧
    (connect env st).errorMessage = some env.errMsg ∧
    (connect env st).micStreams = st.micStreams + 1 ∧
    (connect env st).sessionOpen = st.sessionOpen := by
  unfold connect
  rw [hm, hc]
  unfold ensureAudioContext
  cases hctx : st.audioCtx <;> simp

/-- Witness for C5 at the environment failing after the microphone step. -/
theorem connect_failure_no_release_witness :
    envMicFailAfter.micOk = true ∧ envMicFailAfter.clientOk = false ∧
    ((connect envMicFailAfter initState).status = ConnectionStatus.error ∧
     (connect envMicFailAfter initState).errorMessage =
        some envMicFailAfter.errMsg ∧
     (connect envMicFailAfter initState).micStreams =
        initState.micStreams + 1 ∧
     (connect envMicFailAfter initState).sessionOpen =
        initState.sessionOpen) :=
  ⟨rfl, rfl, connect_failure_no_release initState envMicFailAfter rfl rfl⟩

/-- Claim C6 counterexample: calling connect while the state is connected is
not ignored: the status mutates to connecting at once and a further
microphone stream is acquired. -/
theorem connect_while_connected_mutates :
    demoConnected.status = ConnectionStatus.connected ∧
    (connect envAllOk demoConnected).status = ConnectionStatus.connecting ∧
    (connect envAllOk demoConnected).micStreams =
      demoConnected.micStreams + 1 :=
  ⟨rfl, rfl, rfl⟩

/-- Claim C6 (amended): connect has no guard on the current status: invoked
from any state, connected included, it sets the connecting status, clears
the error slot, acquires a further microphone stream and opens a new
session. -/
theorem connect_no_guard (st : AppState) (env : ConnectEnv)
    (hm : env.micOk = true) (hc : env.clientOk = true) :
    (connect env st).status = ConnectionStatus.connecting ∧
    (connect env st).errorMessage = none ∧
    (connect env st).micStreams = st.micStreams + 1 ∧
    (connect env st).sessionOpen = true := by
  unfold connect
  rw [hm, hc]
  unfold ensureAudioContext
  cases hctx : st.audioCtx <;> simp

/-- Witness for C6 at the connected demo state. -/
theorem connect_no_guard_witness :
    envAllOk.micOk = true ∧ envAllOk.clientOk = true ∧
    demoConnected.status = ConnectionStatus.connected ∧
    ((connect envAllOk demoConnected).status = ConnectionStatus.connecting ∧
     (connect envAllOk demoConnected).errorMessage = none ∧
     (connect envAllOk demoConnected).micStreams =
        demoConnected.micStreams + 1 ∧
     (connect envAllOk demoConnected).sessionOpen = true) :=
  ⟨rfl, rfl, rfl, connect_no_guard demoConnected envAllOk rfl rfl⟩

/-- Claim C7 counterexample: the close handler does not stop the capture
stream: in a connected state with a running capture graph, the graph is
still running right after the close event. -/
theorem onclose_leaves_capture_running :
    demoClosing.captureRunning = true ∧
    (onclose demoClosing).captureRunning = true :=
  ⟨rfl, rfl⟩

/-- Claim C7 (amended): on every channel close event the controller sets the
disconnected status and clears the talking and listening flags, leaves the
playback scheduler un-reset with active set and cursor unchanged, and also
leaves the capture stream running: nothing stops the microphone input
graph. -/
theorem onclose_effects (st : AppState) :
    (onclose st).status = ConnectionStatus.disconnected ∧
    (onclose st).isListening = false ∧
    (onclose st).isAssistantTalking = false ∧
    (onclose st).captureRunning = st.captureRunning ∧
    (onclose st).sources = st.sources ∧
    (onclose st).nextStartTime = st.nextStartTime :=
  ⟨rfl, rfl, rfl, rfl, rfl, rfl⟩

/-- Witness for C7 at the closing demo state. -/
theorem onclose_effects_witness :
    (onclose demoClosing).status = ConnectionStatus.disconnected ∧
    (onclose demoClosing).isListening = false ∧
    (onclose demoClosing).isAssistantTalking = false ∧
    (onclose demoClosing).captureRunning = demoClosing.captureRunning ∧
    (onclose demoClosing).sources = demoClosing.sources ∧
    (onclose demoClosing).nextStartTime = demoClosing.nextStartTime :=
  onclose_effects demoClosing

/-- Claim C8 counterexample: immediately after disconnect returns, before
any close event is processed, the status is already disconnected. -/
theorem disconnect_sets_status_synchronously :
    demoConnected.status = ConnectionStatus.connected ∧
    (disconnect demoConnected).status = ConnectionStatus.disconnected :=
  ⟨rfl, rfl⟩

/-- Claim C8 (amended): disconnect requests the channel close when a session
exists and also synchronously sets the disconnected status and clears both
flags, so the state is already disconnected when the close event later
arrives. -/
theorem disconnect_effects (st : AppState) :
    (disconnect st).status = ConnectionStatus.disconnected ∧
    (disconnect st).isListening = false ∧
    (disconnect st).isAssistantTalking = false ∧
    (disconnect st).closeRequested = (st.closeRequested || st.sessionOpen) :=
  ⟨rfl, rfl, rfl, rfl⟩

/-- Witness for C8 at the connected demo state. -/
theorem disconnect_effects_witness :
    (disconnect demoConnected).status = ConnectionStatus.disconnected ∧
    (disconnect demoConnected).isListening = false ∧
    (disconnect demoConnected).isAssistantTalking = false ∧
    (disconnect demoConnected).closeRequested =
      (demoConnected.closeRequested || demoConnected.sessionOpen) :=
  disconnect_effects demoConnected

/-- Claim C9: starting from empty per-role buffers, the interleaved appends
user a, assistant b, user c followed by one turn completion append exactly
two records, the user record ac with the first clock reading and then the
assistant record b with the second clock reading plus one, hence a strictly
greater timestamp whenever the clock did not go backwards; both buffers are
cleared and an immediately following turn completion appends nothing. -/
theorem transcript_turn (st : AppState) (t1 t2 t3 t4 : ℤ)
    (hu : st.userBuf = "") (ha : st.assistantBuf = "") (ht : t1 ≤ t2) :
    (onTurnComplete t1 t2 (interleavedTurn st)).messages =
      st.messages ++
        [{ role := Role.user, text := "ac", timestamp := t1 },
         { role := Role.assistant, text := "b", timestamp := t2 + 1 }] ∧
    t1 < t2 + 1 ∧
    (onTurnComplete t1 t2 (interleavedTurn st)).userBuf = "" ∧
    (onTurnComplete t1 t2 (interleavedTurn st)).assistantBuf = "" ∧
    onTurnComplete t3 t4 (onTurnComplete t1 t2 (interleavedTurn st)) =
      onTurnComplete t1 t2 (interleavedTurn st) := by
  have hbu : (interleavedTurn st).userBuf = "ac" := by
    show (st.userBuf ++ "a") ++ "c" = "ac"
    rw [hu]
    rfl
  have hba : (interleavedTurn st).assistantBuf = "b" := by
    show st.assistantBuf ++ "b" = "b"
    rw [ha]
    rfl
  have hbm : (interleavedTurn st).messages = st.messages := rfl
  have hfin : onTurnComplete t1 t2 (interleavedTurn st) =
      { interleavedTurn st with
          messages := st.messages ++
            [{ role := Role.user, text := "ac", timestamp := t1 },
             { role := Role.assistant, text := "b", timestamp := t2 + 1 }],
          userBuf := "", assistantBuf := "" } := by
    unfold onTurnComplete
    rw [hbu, hba, hbm]
    rw [if_pos (by decide : ("ac" : String) ≠ "" ∨ ("b" : String) ≠ "")]
    rw [if_pos (by decide : ("ac" : String) ≠ "")]
    rw [if_pos (by decide : ("b" : String) ≠ "")]
    rfl
  refine ⟨by rw [hfin], by omega, by rw [hfin], by rw [hfin], ?_⟩
  rw [hfin]
  unfold onTurnComplete
  rw [if_neg (by decide : ¬ (("" : String) ≠ "" ∨ ("" : String) ≠ ""))]

/-- Witness for C9 from the initial state with clock readings 10 and 10. -/
theorem transcript_turn_witness :
    initState.userBuf = "" ∧ initState.assistantBuf = "" ∧
    (10 : ℤ) ≤ 10 ∧
    ((onTurnComplete 10 10 (interleavedTurn initState)).messages =
      initState.messages ++
        [{ role := Role.user, text := "ac", timestamp := 10 },
         { role := Role.assistant, text := "b", timestamp := 10 + 1 }] ∧
    (10 : ℤ) < 10 + 1 ∧
    (onTurnComplete 10 10 (interleavedTurn initState)).userBuf = "" ∧
    (onTurnComplete 10 10 (interleavedTurn initState)).assistantBuf = "" ∧
    onTurnComplete 11 12 (onTurnComplete 10 10 (interleavedTurn initState)) =
      onTurnComplete 10 10 (interleavedTurn initState)) :=
  ⟨rfl, rfl, by decide,
   transcript_turn initState 10 10 11 12 rfl rfl (by decide)⟩

/-- Once the context pair exists, no event handler replaces it or creates
another: every step keeps the pair and the creation count. -/
theorem step_audioCtx_some (op : Op) (st : AppState) (p : AudioCtxPair)
    (h : st.audioCtx = some p) :
    (step op st).audioCtx = some p ∧
    (step op st).ctxCreations = st.ctxCreations := by
  cases op with
  | connectOp env =>
      show (connect env st).audioCtx = some p ∧
        (connect env st).ctxCreations = st.ctxCreations
      unfold connect ensureAudioContext
      cases env.micOk <;> cases env.clientOk <;> simp [h]
  | disconnectOp => exact ⟨h, rfl⟩
  | chOpen => exact ⟨h, rfl⟩
  | chClose => exact ⟨h, rfl⟩
  | chError msg => exact ⟨h, rfl⟩
  | inputTrans s => exact ⟨h, rfl⟩
  | outputTrans s => exact ⟨h, rfl⟩
  | turnComplete t1 t2 =>
      show (onTurnComplete t1 t2 st).audioCtx = some p ∧
        (onTurnComplete t1 t2 st).ctxCreations = st.ctxCreations
      unfold onTurnComplete
      split <;> exact ⟨h, rfl⟩
  | audio now d => exact ⟨h, rfl⟩
  | interrupted => exact ⟨h, rfl⟩

/-- From a state without contexts, a step either still has none and the same
creation count, or created exactly the standard 16 kHz and 24 kHz pair and
counted one creation. -/
theorem step_audioCtx_none (op : Op) (st : AppState)
    (h : st.audioCtx = none) :
    ((step op st).audioCtx = none ∧
      (step op st).ctxCreations = st.ctxCreations) ∨
    ((step op st).audioCtx = some { id := st.ctxCreations,
                                    inputRate := 16000,
                                    outputRate := 24000 } ∧
      (step op st).ctxCreations = st.ctxCreations + 1) := by
  cases op with
  | connectOp env =>
      right
      show (connect env st).audioCtx = some { id := st.ctxCreations,
                                              inputRate := 16000,
                                              outputRate := 24000 } ∧
        (connect env st).ctxCreations = st.ctxCreations + 1
      unfold connect ensureAudioContext
      cases env.micOk <;> cases env.clientOk <;> simp [h]
  | disconnectOp => exact Or.inl ⟨h, rfl⟩
  | chOpen => exact Or.inl ⟨h, rfl⟩
  | chClose => exact Or.inl ⟨h, rfl⟩
  | chError msg => exact Or.inl ⟨h, rfl⟩
  | inputTrans s => exact Or.inl ⟨h, rfl⟩
  | outputTrans s => exact Or.inl ⟨h, rfl⟩
  | turnComplete t1 t2 =>
      left
      show (onTurnComplete t1 t2 st).audioCtx = none ∧
        (onTurnComplete t1 t2 st).ctxCreations = st.ctxCreations
      unfold onTurnComplete
      split <;> exact ⟨h, rfl⟩
  | audio now d => exact Or.inl ⟨h, rfl⟩
  | interrupted => exact Or.inl ⟨h, rfl⟩

/-- Claim C10: over every event sequence, a context pair existing at the
start persists identically with no further creation, and from a fresh state
the two audio contexts are created at most once, with the input graph at
16 kHz and the output graph at 24 kHz: no connect, disconnect, close, error
or message ever closes or recreates them. -/
theorem audio_contexts_created_once : ∀ (ops : List Op) (st : AppState),
    (∀ p, st.audioCtx = some p →
      (run ops st).audioCtx = some p ∧
      (run ops st).ctxCreations = st.ctxCreations) ∧
    (st.audioCtx = none → st.ctxCreations = 0 →
      (run ops st).ctxCreations ≤ 1 ∧
      ∀ q, (run ops st).audioCtx = some q →
        q.inputRate = 16000 ∧ q.outputRate = 24000)
  | [], st => by
      refine ⟨fun p hp => ⟨hp, rfl⟩, fun h h0 => ⟨?_, fun q hq => ?_⟩⟩
      · show st.ctxCreations ≤ 1
        omega
      · rw [show run [] st = st from rfl, h] at hq
        exact Option.noConfusion hq
  | op :: rest, st => by
      have ih := audio_contexts_created_once rest (step op st)
      have hrun : run (op :: rest) st = run rest (step op st) := rfl
      constructor
      · intro p hp
        obtain ⟨h1, h2⟩ := step_audioCtx_some op st p hp
        obtain ⟨h3, h4⟩ := ih.1 p h1
        rw [hrun]
        exact ⟨h3, by rw [h4, h2]⟩
      · intro hn h0
        rcases step_audioCtx_none op st hn with ⟨h1, h2⟩ | ⟨h1, h2⟩
        · obtain ⟨h3, h4⟩ := ih.2 h1 (by rw [h2, h0])
          rw [hrun]
          exact ⟨h3, h4⟩
        · obtain ⟨h3, h4⟩ := ih.1 _ h1
          rw [hrun]
          refine ⟨by rw [h4, h2, h0], fun q hq => ?_⟩
          rw [h3] at hq
          cases hq
          exact ⟨rfl, rfl⟩

/-- Witness for C10: two connects with a disconnect and a close in between
still create the context pair only once. -/
theorem audio_contexts_created_once_witness :
    initState.audioCtx = none ∧ initState.ctxCreations = 0 ∧
    ((run ops10 initState).ctxCreations ≤ 1 ∧
      ∀ q, (run ops10 initState).audioCtx = some q →
        q.inputRate = 16000 ∧ q.outputRate = 24000) :=
  ⟨rfl, rfl, (audio_contexts_created_once ops10 initState).2 rfl rfl⟩

end Aura
